import Mathlib

/-!
Verification of the rental-mobil application (frontend `App.tsx`, backend
`server.ts`, schema `rental_mobil.sql`).

The pricing logic lives in the frontend: `calculateDiscountPct` maps the
rental duration to a discount percentage, and the component body derives
`subtotal`, `extraHoursCost`, `discount` and `total` from the selected car's
daily price and the form inputs.  JavaScript numbers are modelled as exact
rationals (`ℚ`); all the quantities involved are integers small enough that
the JS arithmetic on them is the exact arithmetic, except for the division
by 100, which `ℚ` renders exactly.

The backend's two endpoints are modelled together with the database
constraints of the schema (`fk_bookings_car` foreign key, the
`rental_days > 0` and `extra_hours >= 0` CHECK clauses): the store is a pair
of tables, `SELECT * FROM cars ORDER BY id` is an insertion sort on the id
column, and `INSERT INTO bookings` appends a row after the constraint
checks, leaving the store untouched when a constraint fails.
-/

namespace RentalMobil

/-- Embeds `calculateDiscountPct` (App.tsx lines 72-73):
`days >= 10 ? 25 : days >= 7 ? 20 : days >= 4 ? 10 : 0`. -/
def calculateDiscountPct (days : ℚ) : ℚ :=
  if days ≥ 10 then 25 else if days ≥ 7 then 20 else if days ≥ 4 then 10 else 0

/-- The price breakdown shown by the component: the five derived values of
App.tsx lines 106-112. -/
structure Quote where
  subtotal : ℚ
  discountPct : ℚ
  discount : ℚ
  extraHoursCost : ℚ
  total : ℚ
deriving DecidableEq

/-- Embeds the price logic of the `App` component (App.tsx lines 106-112)
for a selected car of daily price `price_per_day`:
`subtotal = price_per_day * rentalDays`, `extraHoursCost = extraHours * 100_000`,
`discount = subtotal * (discountPct / 100)`, `total = subtotal - discount + extraHoursCost`. -/
def computeQuote (price_per_day rentalDays extraHours : ℚ) : Quote :=
  let discountPct := calculateDiscountPct rentalDays
  let subtotal := price_per_day * rentalDays
  let extraHoursCost := extraHours * 100000
  let discount := subtotal * (discountPct / 100)
  { subtotal := subtotal
    discountPct := discountPct
    discount := discount
    extraHoursCost := extraHoursCost
    total := subtotal - discount + extraHoursCost }

/-- A row of the `cars` table (rental_mobil.sql: id, name, price_per_day),
which is also the `Car` interface of App.tsx lines 22-26. -/
structure Car where
  id : ℤ
  name : String
  price_per_day : ℤ
deriving DecidableEq

/-- A row of the `bookings` table (rental_mobil.sql): id, car_id,
rental_days, extra_hours, total_price.  The `booked_at` timestamp is
store-assigned wall-clock time and is not modelled. -/
structure BookingRow where
  id : ℤ
  car_id : ℤ
  rental_days : ℤ
  extra_hours : ℤ
  total_price : ℤ
deriving DecidableEq

/-- The database state: the two tables, plus the AUTO_INCREMENT counter of
`bookings`. -/
structure Db where
  cars : List Car
  bookings : List BookingRow
  nextBookingId : ℤ
deriving DecidableEq

/-- The body of a `POST /booking` request (server.ts line 57):
`carId`, `rentalDays`, `extraHours`, `totalPrice`. -/
structure BookingRequest where
  carId : ℤ
  rentalDays : ℤ
  extraHours : ℤ
  totalPrice : ℤ
deriving DecidableEq

/-- Embeds `INSERT INTO bookings (car_id, rental_days, extra_hours,
total_price) VALUES (?,?,?,?)` under the schema's constraints
(rental_mobil.sql lines 330-340): the `fk_bookings_car` foreign key requires
`car_id` to reference a row of `cars`, and the CHECK clauses require
`rental_days > 0` and `extra_hours >= 0`.  A violated constraint rejects the
statement and the table is unchanged. -/
def insertBooking (db : Db) (carId rentalDays extraHours totalPrice : ℤ) :
    Except String Db :=
  if ¬ ∃ c ∈ db.cars, c.id = carId then
    Except.error "fk_bookings_car: foreign key constraint fails"
  else if ¬ rentalDays > 0 then
    Except.error "CHECK constraint rental_days failed"
  else if ¬ extraHours ≥ 0 then
    Except.error "CHECK constraint extra_hours failed"
  else
    Except.ok
      { db with
        bookings := db.bookings ++
          [⟨db.nextBookingId, carId, rentalDays, extraHours, totalPrice⟩]
        nextBookingId := db.nextBookingId + 1 }

/-- Embeds the `POST /booking` handler (server.ts lines 56-63): it forwards
the four body fields verbatim to the INSERT and answers
`{ message: 'Pemesanan berhasil!' }` on success; a rejected INSERT leaves
the store as it was and surfaces as an error, never as the success
message. -/
def handlePostBooking (db : Db) (req : BookingRequest) : Db × Except String String :=
  match insertBooking db req.carId req.rentalDays req.extraHours req.totalPrice with
  | Except.ok db2 => (db2, Except.ok "Pemesanan berhasil!")
  | Except.error e => (db, Except.error e)

/-- The ordering used by `ORDER BY id`: comparison of the `id` column. -/
def carIdLe (a b : Car) : Prop := a.id ≤ b.id

instance : DecidableRel carIdLe := fun a b => inferInstanceAs (Decidable (a.id ≤ b.id))

instance : IsTotal Car carIdLe := ⟨fun a b => le_total a.id b.id⟩

instance : IsTrans Car carIdLe := ⟨fun _ _ _ => le_trans⟩

/-- Embeds the `GET /cars` handler (server.ts lines 40-43):
`SELECT * FROM cars ORDER BY id` returns every row of `cars`, sorted by id
ascending; the request carries no parameters, so the handler is a function
of the store alone. -/
def getCars (db : Db) : List Car := List.insertionSort carIdLe db.cars

/-- The client-side form state (App.tsx lines 37-41 and its initial value
at lines 86-90). -/
structure BookingForm where
  selectedCar : Option ℤ
  rentalDays : ℤ
  extraHours : ℤ
deriving DecidableEq

/-- The outcome of the `axios.post` call awaited in `handleBooking`. -/
inductive PostOutcome where
  | success (message : String)
  | failure
deriving DecidableEq

/-- Embeds `handleBooking` (App.tsx lines 131-145) as a transformer of the
form state: with no matching selected car it returns early; on a successful
post it resets the form to `{ selectedCar: null, rentalDays: 1,
extraHours: 0 }`; on a failed post the `catch` branch only alerts, leaving
the form untouched. -/
def handleBooking (cars : List Car) (form : BookingForm) (outcome : PostOutcome) :
    BookingForm :=
  match cars.find? (fun c => form.selectedCar == some c.id) with
  | none => form
  | some _ =>
    match outcome with
    | PostOutcome.success _ => ⟨none, 1, 0⟩
    | PostOutcome.failure => form

/-- The discount percentage is one of 0, 10, 20, 25, whatever the duration. -/
theorem calculateDiscountPct_cases (d : ℚ) :
    calculateDiscountPct d = 0 ∨ calculateDiscountPct d = 10 ∨
    calculateDiscountPct d = 20 ∨ calculateDiscountPct d = 25 := by
  unfold calculateDiscountPct
  split_ifs <;> norm_num

/-- The discount percentage is at most 25. -/
theorem calculateDiscountPct_le (d : ℚ) : calculateDiscountPct d ≤ 25 := by
  unfold calculateDiscountPct
  split_ifs <;> norm_num

/-- The discount percentage is non-negative. -/
theorem calculateDiscountPct_nonneg (d : ℚ) : 0 ≤ calculateDiscountPct d := by
  unfold calculateDiscountPct
  split_ifs <;> norm_num

/-- C1: for non-negative price-per-day `P`, rental-days `D` and extra-hours
`H`, the quote's total equals `P·D·(1 − discount(D)/100) + 100000·H`, and
this total is non-negative. -/
theorem quote_total_formula (P D H : ℚ) (hP : 0 ≤ P) (hD : 0 ≤ D) (hH : 0 ≤ H) :
    (computeQuote P D H).total = P * D * (1 - calculateDiscountPct D / 100) + 100000 * H ∧
    0 ≤ (computeQuote P D H).total := by
  constructor
  · show P * D - P * D * (calculateDiscountPct D / 100) + H * 100000 =
      P * D * (1 - calculateDiscountPct D / 100) + 100000 * H
    ring
  · show 0 ≤ P * D - P * D * (calculateDiscountPct D / 100) + H * 100000
    have h1 : calculateDiscountPct D / 100 ≤ 1 := by
      have := calculateDiscountPct_le D
      linarith
    have h2 : 0 ≤ P * D := mul_nonneg hP hD
    have h3 : P * D * (calculateDiscountPct D / 100) ≤ P * D * 1 :=
      mul_le_mul_of_nonneg_left h1 h2
    nlinarith

/-- Witness for C1 at `P = 640000`, `D = 10`, `H = 2`. -/
theorem quote_total_formula_witness :
    (computeQuote 640000 10 2).total =
      640000 * 10 * (1 - calculateDiscountPct 10 / 100) + 100000 * 2 ∧
    0 ≤ (computeQuote 640000 10 2).total :=
  quote_total_formula 640000 10 2 (by norm_num) (by norm_num) (by norm_num)

/-- C2: the discount tiers are exactly 25% from 10 days on, 20% for 7-9
days, 10% for 4-6 days, and 0% below 4 days, thresholds inclusive. -/
theorem calculateDiscountPct_tiers (d : ℚ) :
    (10 ≤ d → calculateDiscountPct d = 25) ∧
    (7 ≤ d ∧ d ≤ 9 → calculateDiscountPct d = 20) ∧
    (4 ≤ d ∧ d ≤ 6 → calculateDiscountPct d = 10) ∧
    (d < 4 → calculateDiscountPct d = 0) := by
  unfold calculateDiscountPct
  refine ⟨fun h => ?_, fun h => ?_, fun h => ?_, fun h => ?_⟩ <;>
    split_ifs <;> first | rfl | linarith [h.1, h.2] | linarith

/-- Witness for C2 at `d = 10`: the top tier gives 25%. -/
theorem calculateDiscountPct_tiers_witness : calculateDiscountPct 10 = 25 :=
  (calculateDiscountPct_tiers 10).1 (by norm_num)

/-- C3 counterexample: at price-per-day 1500000, 6 rental days and 0 extra
hours the code does not produce discount 150000 and total 1350000. -/
theorem scenarioB_claim_false :
    ¬ ((computeQuote 1500000 6 0).discountPct = 10 ∧
       (computeQuote 1500000 6 0).discount = 150000 ∧
       (computeQuote 1500000 6 0).total = 1350000) := by
  intro h
  have := h.2.1
  norm_num [computeQuote, calculateDiscountPct] at this

/-- C3 amended: at price-per-day 1500000, 6 rental days and 0 extra hours
the quote has discount-percent 10, discount-amount 900000 (10% of the
9000000 subtotal) and total 8100000, matching booking row 3 of the dump. -/
theorem scenarioB_amended :
    (computeQuote 1500000 6 0).discountPct = 10 ∧
    (computeQuote 1500000 6 0).discount = 900000 ∧
    (computeQuote 1500000 6 0).total = 8100000 := by
  refine ⟨?_, ?_, ?_⟩ <;> norm_num [computeQuote, calculateDiscountPct]

/-- C4 counterexample: at price-per-day 640000, 10 rental days and 2 extra
hours the code does not produce total 4800000: adding the 200000 extra-hours
cost to the discounted 4800000 gives 5000000. -/
theorem scenarioC_claim_false :
    ¬ ((computeQuote 640000 10 2).discountPct = 25 ∧
       (computeQuote 640000 10 2).discount = 1600000 ∧
       (computeQuote 640000 10 2).extraHoursCost = 200000 ∧
       (computeQuote 640000 10 2).total = 4800000) := by
  intro h
  have := h.2.2.2
  norm_num [computeQuote, calculateDiscountPct] at this

/-- C4 amended: at price-per-day 640000, 10 rental days and 2 extra hours
the quote has discount-percent 25, discount-amount 1600000, extra-hours
cost 200000 and total 640000·10 − 1600000 + 200000 = 5000000. -/
theorem scenarioC_amended :
    (computeQuote 640000 10 2).discountPct = 25 ∧
    (computeQuote 640000 10 2).discount = 1600000 ∧
    (computeQuote 640000 10 2).extraHoursCost = 200000 ∧
    (computeQuote 640000 10 2).total = 5000000 := by
  refine ⟨?_, ?_, ?_, ?_⟩ <;> norm_num [computeQuote, calculateDiscountPct]

/-- C5: a booking submission whose vehicle id matches no catalog row is
answered with an error, not the success message, and appends no row to the
`bookings` table. -/
theorem postBooking_unknown_car_fails (db : Db) (req : BookingRequest)
    (h : ∀ c ∈ db.cars, c.id ≠ req.carId) :
    (handlePostBooking db req).2 =
      Except.error "fk_bookings_car: foreign key constraint fails" ∧
    (handlePostBooking db req).1 = db := by
  have hfk : ¬ ∃ c ∈ db.cars, c.id = req.carId := by
    rintro ⟨c, hc, hid⟩
    exact h c hc hid
  simp [handlePostBooking, insertBooking, hfk]

/-- Witness for C5: one car with id 1 in the catalog, a request for car 99. -/
theorem postBooking_unknown_car_fails_witness :
    (handlePostBooking ⟨[⟨1, "Avanza", 640000⟩], [], 6⟩ ⟨99, 1, 0, 640000⟩).2 =
      Except.error "fk_bookings_car: foreign key constraint fails" ∧
    (handlePostBooking ⟨[⟨1, "Avanza", 640000⟩], [], 6⟩ ⟨99, 1, 0, 640000⟩).1 =
      ⟨[⟨1, "Avanza", 640000⟩], [], 6⟩ :=
  postBooking_unknown_car_fails ⟨[⟨1, "Avanza", 640000⟩], [], 6⟩ ⟨99, 1, 0, 640000⟩
    (by decide)

/-- C6: a successful booking submission appends exactly one row, carrying
the caller's vehicle id, rental-days, extra-hours and total-price verbatim
(whatever total-price is — no recomputation from the catalog), and answers
the success message. -/
theorem postBooking_success (db : Db) (req : BookingRequest)
    (hcar : ∃ c ∈ db.cars, c.id = req.carId)
    (hdays : req.rentalDays > 0) (hhours : req.extraHours ≥ 0) :
    (handlePostBooking db req).2 = Except.ok "Pemesanan berhasil!" ∧
    (handlePostBooking db req).1.bookings =
      db.bookings ++
        [⟨db.nextBookingId, req.carId, req.rentalDays, req.extraHours, req.totalPrice⟩] ∧
    (handlePostBooking db req).1.bookings.length = db.bookings.length + 1 := by
  have h1 : ¬ ¬ ∃ c ∈ db.cars, c.id = req.carId := not_not_intro hcar
  have h2 : ¬ ¬ req.rentalDays > 0 := not_not_intro hdays
  have h3 : ¬ ¬ req.extraHours ≥ 0 := not_not_intro hhours
  simp [handlePostBooking, insertBooking, h1, h2, h3, hcar, hdays, hhours]

/-- Witness for C6: booking car 1 with a client-supplied total of 7 — a
value unrelated to the catalog price — is stored verbatim. -/
theorem postBooking_success_witness :
    (handlePostBooking ⟨[⟨1, "Avanza", 640000⟩], [], 6⟩ ⟨1, 2, 3, 7⟩).2 =
      Except.ok "Pemesanan berhasil!" ∧
    (handlePostBooking ⟨[⟨1, "Avanza", 640000⟩], [], 6⟩ ⟨1, 2, 3, 7⟩).1.bookings =
      [] ++ [⟨6, 1, 2, 3, 7⟩] ∧
    (handlePostBooking ⟨[⟨1, "Avanza", 640000⟩], [], 6⟩ ⟨1, 2, 3, 7⟩).1.bookings.length =
      List.length ([] : List BookingRow) + 1 :=
  postBooking_success ⟨[⟨1, "Avanza", 640000⟩], [], 6⟩ ⟨1, 2, 3, 7⟩
    (by decide) (by decide) (by decide)

/-- C7: the catalog query returns the whole `cars` table — the result is a
permutation of the stored rows, so no filtering and no pagination — sorted
by id ascending, and depends on nothing but the store. -/
theorem getCars_full_sorted (db : Db) :
    List.Perm (getCars db) db.cars ∧ List.Sorted carIdLe (getCars db) :=
  ⟨List.perm_insertionSort carIdLe db.cars, List.sorted_insertionSort carIdLe db.cars⟩

/-- C8: the quote computation is a pure function of its three inputs: equal
inputs give equal breakdowns (all five fields at once). -/
theorem computeQuote_deterministic (p₁ p₂ d₁ d₂ h₁ h₂ : ℚ)
    (hp : p₁ = p₂) (hd : d₁ = d₂) (hh : h₁ = h₂) :
    computeQuote p₁ d₁ h₁ = computeQuote p₂ d₂ h₂ := by
  rw [hp, hd, hh]

/-- Witness for C8 at the Scenario A input. -/
theorem computeQuote_deterministic_witness :
    computeQuote 890000 1 0 = computeQuote 890000 1 0 :=
  computeQuote_deterministic 890000 890000 1 1 0 0 rfl rfl rfl

/-- C9: a failed submission leaves the in-progress form unchanged; the form
is reset to `(none, 1, 0)` only on success (and only when a car was
actually selected and found). -/
theorem handleBooking_form_state (cars : List Car) (form : BookingForm) :
    handleBooking cars form PostOutcome.failure = form ∧
    (∀ msg c, cars.find? (fun c => form.selectedCar == some c.id) = some c →
      handleBooking cars form (PostOutcome.success msg) = ⟨none, 1, 0⟩) := by
  constructor
  · unfold handleBooking
    cases cars.find? (fun c => form.selectedCar == some c.id) <;> rfl
  · intro msg c hc
    unfold handleBooking
    rw [hc]

/-- Witness for C9: with car 1 selected and found, success resets the form. -/
theorem handleBooking_form_state_witness :
    handleBooking [⟨1, "Avanza", 640000⟩] ⟨some 1, 5, 2⟩ PostOutcome.failure =
      (⟨some 1, 5, 2⟩ : BookingForm) ∧
    handleBooking [⟨1, "Avanza", 640000⟩] ⟨some 1, 5, 2⟩ (PostOutcome.success "ok") =
      (⟨none, 1, 0⟩ : BookingForm) :=
  ⟨(handleBooking_form_state [⟨1, "Avanza", 640000⟩] ⟨some 1, 5, 2⟩).1,
   (handleBooking_form_state [⟨1, "Avanza", 640000⟩] ⟨some 1, 5, 2⟩).2 "ok"
     ⟨1, "Avanza", 640000⟩ (by decide)⟩

/-- C10: the discount percentage is monotone in the duration, and lies in
{0, 10, 20, 25}. -/
theorem calculateDiscountPct_monotone (d₁ d₂ : ℚ) (h : d₁ ≤ d₂) :
    calculateDiscountPct d₁ ≤ calculateDiscountPct d₂ ∧
    (calculateDiscountPct d₁ = 0 ∨ calculateDiscountPct d₁ = 10 ∨
     calculateDiscountPct d₁ = 20 ∨ calculateDiscountPct d₁ = 25) := by
  refine ⟨?_, calculateDiscountPct_cases d₁⟩
  unfold calculateDiscountPct
  split_ifs <;> linarith

/-- Witness for C10 at `d₁ = 3`, `d₂ = 10`. -/
theorem calculateDiscountPct_monotone_witness :
    calculateDiscountPct 3 ≤ calculateDiscountPct 10 ∧
    (calculateDiscountPct 3 = 0 ∨ calculateDiscountPct 3 = 10 ∨
     calculateDiscountPct 3 = 20 ∨ calculateDiscountPct 3 = 25) :=
  calculateDiscountPct_monotone 3 10 (by norm_num)

end RentalMobil
